import Mathlib

/-!
Verification of the state synchronization slice of the network-operator
repository: the HostDeviceNetwork state (src/pkg/state/state_hostdevice_network.go)
and the SR-IOV device plugin state (src/unnamed/part_000, package state).

Go conventions modelled here:
  * a Go `error` value is `Option GoErr` with `none` for `nil`;
  * `errors.Wrap(err, msg)` from github.com/pkg/errors returns `nil` when
    `err` is `nil`, otherwise an error whose message is `msg ++ ": " ++ err`;
  * `errors.New msg` is a non-nil error with message `msg`;
  * Go strings are Lean `String`s; `strings.HasPrefix(s, p)` is prefix
    testing on the character sequence;
  * a Go map read of an absent key yields the zero value `""`;
  * a failed type assertion `x.(*T)` is a run-time panic, modelled by the
    `SyncOutcome.panics` constructor.

External collaborators (the renderer, the cluster API client used by the
stateSkel helpers, SetControllerReference) are modelled as oracle functions
carried in an environment record, and every Sync run also records a trace of
which collaborator operations it invoked and which objects it applied.
-/

/-- A Go error message. `Option GoErr` models a nil-able Go `error`. -/
abbrev GoErr := String

/-- `errors.Wrap` of github.com/pkg/errors: returns nil on a nil argument. -/
def errorsWrap : Option GoErr → String → Option GoErr
  | none, _ => none
  | some e, msg => some (msg ++ ": " ++ e)

/-- `errors.New` of github.com/pkg/errors: always a non-nil error. -/
def errorsNew (msg : String) : Option GoErr :=
  some msg

/-- `strings.HasPrefix(s, pre)` of the Go standard library, on the
character sequences of the two strings. -/
def stringsHasPrefix (s pre : String) : Bool :=
  pre.data.isPrefixOf s.data

/-- The SyncState verdict enumeration of pkg/state. -/
inductive SyncState
  | Ready
  | NotReady
  | Ignore
  | Error
deriving DecidableEq

/-- `unstructured.Unstructured`: the schema-agnostic cluster object produced
by the renderer; only the fields this slice reads are modelled. -/
structure Unstructured where
  kind : String
  name : String
  ns : String
deriving DecidableEq

/-- `Unstructured.GetKind()`. -/
def Unstructured.GetKind (o : Unstructured) : String :=
  o.kind

/-- One collaborator operation a Sync run can invoke; Sync returns the list
of operations it performed, in order. -/
inductive Call
  | getNodeInfoProvider
  | getNodesAttributes
  | renderObjects
  | createOrUpdate
  | getSyncState
  | getObj
deriving DecidableEq

/-- The observable outcome of one (non-panicking) Sync run: the verdict, the
returned error value, the collaborator operations invoked, and the objects
actually applied to the cluster. -/
structure SyncResult where
  state : SyncState
  err : Option GoErr
  calls : List Call
  applied : List Unstructured
deriving DecidableEq

/-- A Sync invocation either returns a (SyncState, error) pair — with its
trace — or panics (the failed type assertion on the customResource). -/
inductive SyncOutcome
  | ok (r : SyncResult)
  | panics
deriving DecidableEq

/-- True when the Sync invocation returned normally (did not panic). -/
def SyncOutcome.isOk : SyncOutcome → Bool
  | .ok _ => true
  | .panics => false

/-- Modelled from the spec: the deployment namespace constant
`consts.NetworkOperatorResourceNamespace` (pkg/consts is not under src/);
its concrete value is irrelevant to every claim. -/
def NetworkOperatorResourceNamespace : String :=
  "nvidia-network-operator-resources"

/-- The `runtimeSpec` fragment shared by the render data types. -/
structure runtimeSpec where
  Namespace : String
deriving DecidableEq

/-- api/v1alpha1 `HostDeviceNetworkSpec`; only the field this slice reads. -/
structure HostDeviceNetworkSpec where
  resourceName : String
deriving DecidableEq

/-- The HostDeviceNetwork custom resource (name, namespace, spec). -/
structure HostDeviceNetwork where
  name : String
  ns : String
  spec : HostDeviceNetworkSpec
deriving DecidableEq

/-- api/v1alpha1 `DevicePluginSpec`: opaque to this slice (its fields are
only copied into render data, never read), represented by an identifier. -/
structure DevicePluginSpec where
  id : Nat
deriving DecidableEq

/-- `v1.NodeAffinity`: opaque to this slice, represented by an identifier. -/
structure NodeAffinity where
  id : Nat
deriving DecidableEq

/-- api/v1alpha1 `OFEDDriverSpec`: opaque to this slice (only its presence
is tested), represented by an identifier. -/
structure OFEDDriverSpec where
  id : Nat
deriving DecidableEq

/-- The fields of the NicClusterPolicy spec this slice reads; Go pointer
fields become `Option`s. -/
structure NicClusterPolicySpec where
  sriovDevicePlugin : Option DevicePluginSpec
  nodeAffinity : Option NodeAffinity
  ofedDriver : Option OFEDDriverSpec
deriving DecidableEq

/-- The NicClusterPolicy custom resource (name, namespace, spec). -/
structure NicClusterPolicy where
  name : String
  ns : String
  spec : NicClusterPolicySpec
deriving DecidableEq

/-- The dynamic type of the `customResource interface{}` argument of Sync:
either of the two custom-resource types of this slice, or any other value. -/
inductive CustomResource
  | hostDeviceNetwork (cr : HostDeviceNetwork)
  | nicClusterPolicy (cr : NicClusterPolicy)
  | otherValue
deriving DecidableEq

/-- Modelled from the spec: pkg/nodeinfo's node-attribute kinds (the package
is not under src/); `AttrTypeOSName` is the one this slice reads. -/
inductive AttributeType
  | osName
  | cpuArch
deriving DecidableEq, BEq

/-- Modelled from the spec: one node-fact record handed back by the node
info provider; `attributes` is the Go map from attribute kind to value. -/
structure NodeAttributes where
  attributes : List (AttributeType × String)
deriving DecidableEq

/-- A Go map read: the stored value, or the zero value "" for an absent key. -/
def mapGetD (m : List (AttributeType × String)) (k : AttributeType) : String :=
  match m.lookup k with
  | some v => v
  | none => ""

/-- Modelled from the spec: pkg/nodeinfo's label-equality filter (§6: a
filter built from label/value predicates). -/
structure LabelFilter where
  labels : List (String × String)
deriving DecidableEq

/-- Modelled from the spec: `nodeinfo.NewNodeLabelFilterBuilder()`. -/
structure NodeLabelFilterBuilder where
  labels : List (String × String)
deriving DecidableEq

/-- Modelled from the spec: the empty filter builder. -/
def NewNodeLabelFilterBuilder : NodeLabelFilterBuilder :=
  ⟨[]⟩

/-- Modelled from the spec: `WithLabel` adds one label-equality predicate. -/
def NodeLabelFilterBuilder.WithLabel
    (b : NodeLabelFilterBuilder) (k v : String) : NodeLabelFilterBuilder :=
  ⟨b.labels ++ [(k, v)]⟩

/-- Modelled from the spec: `Build` finishes the filter. -/
def NodeLabelFilterBuilder.Build (b : NodeLabelFilterBuilder) : LabelFilter :=
  ⟨b.labels⟩

/-- Modelled from the spec: the `nodeinfo.NodeLabelMlnxNIC` label key
(pkg/nodeinfo is not under src/); its concrete value is irrelevant. -/
def NodeLabelMlnxNIC : String :=
  "feature.node.kubernetes.io/custom-mellanox.present"

/-- Modelled from the spec: `nodeinfo.Provider`, answering filtered
node-attribute queries (§6). -/
structure NodeInfoProvider where
  getNodesAttributes : LabelFilter → List NodeAttributes

/-- The InfoCatalog capability lookup: `GetNodeInfoProvider` may be nil. -/
structure InfoCatalog where
  getNodeInfoProvider : Option NodeInfoProvider

/-- Modelled from the spec: `stateSkel.createOrUpdateObjs` (the stateSkel
helper file is not under src/). Per §4.3: for each object, in the given
order, invoke the mutation hook; if the hook fails, abort the whole batch;
otherwise create-or-update the object; application is strictly sequential
and short-circuits on the first failure. Returns the first error (`none` on
success) and the list of objects that were actually applied. -/
def createOrUpdateObjs (hook applyObj : Unstructured → Option GoErr) :
    List Unstructured → Option GoErr × List Unstructured
  | [] => (none, [])
  | obj :: rest =>
    match hook obj with
    | some e => (some e, [])
    | none =>
      match applyObj obj with
      | some e => (some e, [])
      | none =>
        match createOrUpdateObjs hook applyObj rest with
        | (res, applied) => (res, obj :: applied)

/-! ### stateHostDeviceNetwork (src/pkg/state/state_hostdevice_network.go) -/

/-- The `resourceNamePrefix` constant. -/
def resourceNamePrefix : String :=
  "nvidia.com/"

/-- The render data type `HostDeviceManifestRenderData`. -/
structure HostDeviceManifestRenderData where
  HostDeviceNetworkName : String
  CrSpec : HostDeviceNetworkSpec
  RuntimeSpec : runtimeSpec
  ResourceName : String
deriving DecidableEq

/-- The external collaborators of the HostDeviceNetwork state, as oracles:
the renderer, `controllerutil.SetControllerReference`, the per-object
create-or-update of stateSkel, `stateSkel.getSyncState` and
`stateSkel.getObj`. -/
structure HostDevEnv where
  renderObjects : HostDeviceManifestRenderData → Except GoErr (List Unstructured)
  setControllerRef : HostDeviceNetwork → Unstructured → Option GoErr
  applyObj : Unstructured → Option GoErr
  getSyncState : List Unstructured → Except GoErr SyncState
  getObj : Unstructured → Option GoErr

/-- The name-normalization step of `getManifestObjects` (lines 125-128):
`resourceName := cr.Spec.ResourceName; if !strings.HasPrefix(resourceName,
resourceNamePrefix) { resourceName = resourceNamePrefix + resourceName }`. -/
def normalizeResourceName (resourceName : String) : String :=
  if ¬ stringsHasPrefix resourceName resourceNamePrefix then
    resourceNamePrefix ++ resourceName
  else
    resourceName

/-- The render data built by `stateHostDeviceNetwork.getManifestObjects`
(lines 125-137). -/
def stateHostDeviceNetwork.renderData (cr : HostDeviceNetwork) :
    HostDeviceManifestRenderData :=
  { HostDeviceNetworkName := cr.name
    CrSpec := cr.spec
    RuntimeSpec := { Namespace := NetworkOperatorResourceNamespace }
    ResourceName := normalizeResourceName cr.spec.resourceName }

/-- `stateHostDeviceNetwork.getManifestObjects`: build render data, render,
wrap a render failure with "failed to render objects". -/
def stateHostDeviceNetwork.getManifestObjects (env : HostDevEnv)
    (cr : HostDeviceNetwork) : Except GoErr (List Unstructured) :=
  match env.renderObjects (stateHostDeviceNetwork.renderData cr) with
  | .error e => .error ("failed to render objects: " ++ e)
  | .ok objs => .ok objs

/-- The mutation hook closure passed to createOrUpdateObjs by
`stateHostDeviceNetwork.Sync` (lines 92-97): stamp the controller reference,
wrapping a failure with "failed to set controller reference for object". -/
def stateHostDeviceNetwork.syncHook (env : HostDevEnv)
    (cr : HostDeviceNetwork) (obj : Unstructured) : Option GoErr :=
  errorsWrap (env.setControllerRef cr obj) "failed to set controller reference for object"

/-- The body of `stateHostDeviceNetwork.Sync` after the type assertion
succeeded (lines 78-115), with its trace. Note that at lines 83-90 the
variable `err` is the nil error left by the successful getManifestObjects
call, so `errors.Wrap(err, ...)` there is nil. -/
def stateHostDeviceNetwork.syncCR (env : HostDevEnv)
    (cr : HostDeviceNetwork) : SyncResult :=
  match stateHostDeviceNetwork.getManifestObjects env cr with
  | .error e =>
    ⟨SyncState.Error, errorsWrap (some e) "failed to render HostDeviceNetwork",
      [Call.renderObjects], []⟩
  | .ok objs =>
    match objs with
    | [] =>
      ⟨SyncState.Error, errorsWrap none "no rendered objects found",
        [Call.renderObjects], []⟩
    | netAttDef :: _ =>
      if netAttDef.GetKind ≠ "NetworkAttachmentDefinition" then
        ⟨SyncState.Error, errorsWrap none "no NetworkAttachmentDefinition object found",
          [Call.renderObjects], []⟩
      else
        match createOrUpdateObjs (stateHostDeviceNetwork.syncHook env cr)
            env.applyObj objs with
        | (some e, applied) =>
          ⟨SyncState.NotReady, errorsWrap (some e) "failed to create/update objects",
            [Call.renderObjects, Call.createOrUpdate], applied⟩
        | (none, applied) =>
          match env.getSyncState objs with
          | .error e =>
            ⟨SyncState.NotReady, errorsWrap (some e) "failed to get sync state",
              [Call.renderObjects, Call.createOrUpdate, Call.getSyncState], applied⟩
          | .ok syncState =>
            match env.getObj netAttDef with
            | some e =>
              ⟨SyncState.Error, errorsWrap (some e) "failed to get NetworkAttachmentDefinition",
                [Call.renderObjects, Call.createOrUpdate, Call.getSyncState, Call.getObj],
                applied⟩
            | none =>
              ⟨syncState, none,
                [Call.renderObjects, Call.createOrUpdate, Call.getSyncState, Call.getObj],
                applied⟩

/-- `stateHostDeviceNetwork.Sync` (line 73): the unchecked type assertion
`customResource.(*mellanoxv1alpha1.HostDeviceNetwork)` panics on any other
dynamic type; the InfoCatalog argument is ignored (`_ InfoCatalog`). -/
def stateHostDeviceNetwork.Sync (env : HostDevEnv)
    (customResource : CustomResource) (_ : InfoCatalog) : SyncOutcome :=
  match customResource with
  | .hostDeviceNetwork cr => .ok (stateHostDeviceNetwork.syncCR env cr)
  | _ => .panics

/-! ### stateSriovDp (src/unnamed/part_000) -/

/-- The render data type `sriovDpManifestRenderData`, with its embedded
`sriovDpRuntimeSpec` (CPUArch is left at the Go zero value by this slice). -/
structure sriovDpRuntimeSpec where
  rs : runtimeSpec
  CPUArch : String
  OSName : String
deriving DecidableEq

/-- The render data type `sriovDpManifestRenderData`. -/
structure sriovDpManifestRenderData where
  CrSpec : Option DevicePluginSpec
  NodeAffinity : Option NodeAffinity
  DeployInitContainer : Bool
  RuntimeSpec : sriovDpRuntimeSpec
deriving DecidableEq

/-- The external collaborators of the SR-IOV device plugin state. -/
structure SriovEnv where
  renderObjects : sriovDpManifestRenderData → Except GoErr (List Unstructured)
  setControllerRef : NicClusterPolicy → Unstructured → Option GoErr
  applyObj : Unstructured → Option GoErr
  getSyncState : List Unstructured → Except GoErr SyncState

/-- The node filter built in `stateSriovDp.getManifestObjects` (line 127):
`NewNodeLabelFilterBuilder().WithLabel(NodeLabelMlnxNIC, "true").Build()`. -/
def mlnxNicFilter : LabelFilter :=
  (NewNodeLabelFilterBuilder.WithLabel NodeLabelMlnxNIC "true").Build

/-- The render data built by `stateSriovDp.getManifestObjects` (lines
133-141) from the custom resource and `attrs[0]`, the first filtered
node-attribute record. -/
def stateSriovDp.renderData (cr : NicClusterPolicy) (a0 : NodeAttributes) :
    sriovDpManifestRenderData :=
  { CrSpec := cr.spec.sriovDevicePlugin
    NodeAffinity := cr.spec.nodeAffinity
    DeployInitContainer := cr.spec.ofedDriver.isSome
    RuntimeSpec :=
      { rs := { Namespace := NetworkOperatorResourceNamespace }
        CPUArch := ""
        OSName := mapGetD a0.attributes AttributeType.osName } }

/-- `stateSriovDp.getManifestObjects` (lines 124-149) with its trace: query
the filtered node attributes; an empty result returns the empty object list
with a nil error (render is not invoked); otherwise build render data from
`attrs[0]` and render, wrapping a render failure. -/
def stateSriovDp.getManifestObjects (env : SriovEnv) (cr : NicClusterPolicy)
    (nodeInfo : NodeInfoProvider) :
    Except GoErr (List Unstructured) × List Call :=
  match nodeInfo.getNodesAttributes mlnxNicFilter with
  | [] => (.ok [], [Call.getNodesAttributes])
  | a0 :: _ =>
    match env.renderObjects (stateSriovDp.renderData cr a0) with
    | .error e =>
      (.error ("failed to render objects: " ++ e),
        [Call.getNodesAttributes, Call.renderObjects])
    | .ok objs => (.ok objs, [Call.getNodesAttributes, Call.renderObjects])

/-- The mutation hook closure passed to createOrUpdateObjs by
`stateSriovDp.Sync` (lines 99-104). -/
def stateSriovDp.syncHook (env : SriovEnv) (cr : NicClusterPolicy)
    (obj : Unstructured) : Option GoErr :=
  errorsWrap (env.setControllerRef cr obj) "failed to set controller reference for object"

/-- The body of `stateSriovDp.Sync` after the type assertion succeeded
(lines 74-114), with its trace. -/
def stateSriovDp.syncCR (env : SriovEnv) (cr : NicClusterPolicy)
    (infoCatalog : InfoCatalog) : SyncResult :=
  match cr.spec.sriovDevicePlugin with
  | none => ⟨SyncState.Ignore, none, [], []⟩
  | some _ =>
    match infoCatalog.getNodeInfoProvider with
    | none =>
      ⟨SyncState.Error, errorsNew "unexpected state, catalog does not provide node information",
        [Call.getNodeInfoProvider], []⟩
    | some nodeInfo =>
      match stateSriovDp.getManifestObjects env cr nodeInfo with
      | (.error e, gcalls) =>
        ⟨SyncState.NotReady, errorsWrap (some e) "failed to create k8s objects from manifest",
          Call.getNodeInfoProvider :: gcalls, []⟩
      | (.ok objs, gcalls) =>
        if objs.length = 0 then
          ⟨SyncState.NotReady, none, Call.getNodeInfoProvider :: gcalls, []⟩
        else
          match createOrUpdateObjs (stateSriovDp.syncHook env cr)
              env.applyObj objs with
          | (some e, applied) =>
            ⟨SyncState.NotReady, errorsWrap (some e) "failed to create/update objects",
              Call.getNodeInfoProvider :: gcalls ++ [Call.createOrUpdate], applied⟩
          | (none, applied) =>
            match env.getSyncState objs with
            | .error e =>
              ⟨SyncState.NotReady, errorsWrap (some e) "failed to get sync state",
                Call.getNodeInfoProvider :: gcalls ++ [Call.createOrUpdate, Call.getSyncState],
                applied⟩
            | .ok syncState =>
              ⟨syncState, none,
                Call.getNodeInfoProvider :: gcalls ++ [Call.createOrUpdate, Call.getSyncState],
                applied⟩

/-- `stateSriovDp.Sync` (line 75): the unchecked type assertion
`customResource.(*mellanoxv1alpha1.NicClusterPolicy)` panics on any other
dynamic type. -/
def stateSriovDp.Sync (env : SriovEnv) (customResource : CustomResource)
    (infoCatalog : InfoCatalog) : SyncOutcome :=
  match customResource with
  | .nicClusterPolicy cr => .ok (stateSriovDp.syncCR env cr infoCatalog)
  | _ => .panics

/-! ### Concrete fixtures used by witnesses and counterexamples -/

/-- A rendered NetworkAttachmentDefinition object. -/
def nadObj : Unstructured :=
  ⟨"NetworkAttachmentDefinition", "hostdev-net", "nvidia-network-operator-resources"⟩

/-- A rendered DaemonSet object. -/
def dsObj : Unstructured :=
  ⟨"DaemonSet", "sriov-device-plugin", "nvidia-network-operator-resources"⟩

/-- A rendered ConfigMap object. -/
def cfgObj : Unstructured :=
  ⟨"ConfigMap", "sriovdp-config", "nvidia-network-operator-resources"⟩

/-- A HostDeviceNetwork custom resource whose resource name lacks the prefix. -/
def hdnCR : HostDeviceNetwork :=
  ⟨"hostdev", "default", ⟨"ib0"⟩⟩

/-- A HostDeviceNetwork custom resource whose resource name already carries
the prefix. -/
def hdnCRPrefixed : HostDeviceNetwork :=
  ⟨"hostdev", "default", ⟨"nvidia.com/ib0"⟩⟩

/-- A NicClusterPolicy with the device-plugin sub-spec set. -/
def ncpCR : NicClusterPolicy :=
  ⟨"nic-cluster-policy", "", ⟨some ⟨1⟩, none, none⟩⟩

/-- A NicClusterPolicy whose device-plugin sub-spec is nil but whose other
fields are set. -/
def ncpNoDp : NicClusterPolicy :=
  ⟨"nic-cluster-policy", "", ⟨none, some ⟨2⟩, some ⟨3⟩⟩⟩

/-- An InfoCatalog with no node info provider. -/
def emptyCatalog : InfoCatalog :=
  ⟨none⟩

/-- A node-attribute record carrying an OS name. -/
def mlnxNode : NodeAttributes :=
  ⟨[(AttributeType.osName, "ubuntu22.04")]⟩

/-- An InfoCatalog whose node info provider answers every query with the
given records. -/
def catalogWith (attrs : List NodeAttributes) : InfoCatalog :=
  ⟨some ⟨fun _ => attrs⟩⟩

/-- A HostDeviceNetwork environment in which every collaborator succeeds. -/
def hdEnvOk : HostDevEnv :=
  { renderObjects := fun _ => .ok [nadObj]
    setControllerRef := fun _ _ => none
    applyObj := fun _ => none
    getSyncState := fun _ => .ok SyncState.Ready
    getObj := fun _ => none }

/-- A HostDeviceNetwork environment whose renderer succeeds with an empty
object list. -/
def hdEnvEmptyRender : HostDevEnv :=
  { hdEnvOk with renderObjects := fun _ => .ok [] }

/-- A HostDeviceNetwork environment whose renderer yields an object that is
not a NetworkAttachmentDefinition. -/
def hdEnvWrongKind : HostDevEnv :=
  { hdEnvOk with renderObjects := fun _ => .ok [dsObj] }

/-- A SriovDp environment in which every collaborator succeeds. -/
def sriovEnvOk : SriovEnv :=
  { renderObjects := fun _ => .ok [dsObj, cfgObj]
    setControllerRef := fun _ _ => none
    applyObj := fun _ => none
    getSyncState := fun _ => .ok SyncState.Ready }

/-- A SriovDp environment whose renderer succeeds with an empty object list. -/
def sriovEnvEmptyRender : SriovEnv :=
  { sriovEnvOk with renderObjects := fun _ => .ok [] }

/-- A HostDeviceNetwork environment whose status read (getSyncState) fails. -/
def hdEnvStatusFail : HostDevEnv :=
  { hdEnvOk with getSyncState := fun _ => .error "status read failed" }

/-- A HostDeviceNetwork environment in which the primary object cannot be
read back after apply (getObj fails). -/
def hdEnvGetObjFail : HostDevEnv :=
  { hdEnvOk with getObj := fun _ => some "not found" }

/-- A HostDeviceNetwork environment whose per-object apply fails. -/
def hdEnvApplyFail : HostDevEnv :=
  { hdEnvOk with applyObj := fun _ => some "apply rejected" }

/-- A HostDeviceNetwork environment whose ownership-stamping hook fails on
the second rendered object. -/
def hdEnvHookFail : HostDevEnv :=
  { hdEnvOk with
    renderObjects := fun _ => .ok [nadObj, cfgObj]
    setControllerRef := fun _ o =>
      if o = cfgObj then some "object already owned by another controller" else none }

/-- A SriovDp environment whose ownership-stamping hook fails on the second
rendered object. -/
def sriovEnvHookFail : SriovEnv :=
  { sriovEnvOk with
    setControllerRef := fun _ o =>
      if o = cfgObj then some "object already owned by another controller" else none }

/-- A SriovDp environment whose status read (getSyncState) fails. -/
def sriovEnvStatusFail : SriovEnv :=
  { sriovEnvOk with getSyncState := fun _ => .error "status read failed" }

/-- A SriovDp environment whose per-object apply fails. -/
def sriovEnvApplyFail : SriovEnv :=
  { sriovEnvOk with applyObj := fun _ => some "apply rejected" }

/-! ### C2: the dynamic type assertion on the customResource argument -/

/-- C2 counterexample: the claim says Sync never panics for any value of the
customResource argument; passing a NicClusterPolicy to the HostDeviceNetwork
state's Sync hits the unchecked type assertion at line 74 and panics. -/
theorem c2_counterexample :
    stateHostDeviceNetwork.Sync hdEnvOk (CustomResource.nicClusterPolicy ncpCR)
      emptyCatalog = SyncOutcome.panics :=
  rfl

/-- C2 (amended): Sync returns normally — a (SyncState, error) pair — exactly
when the customResource argument has the dynamic type the state expects
(HostDeviceNetwork for stateHostDeviceNetwork, NicClusterPolicy for
stateSriovDp); any other dynamic type makes the unchecked type assertion
panic. -/
theorem c2_amended_type_assertion :
    (∀ (env : HostDevEnv) (cr : HostDeviceNetwork) (c : InfoCatalog),
      (stateHostDeviceNetwork.Sync env (CustomResource.hostDeviceNetwork cr) c).isOk = true) ∧
    (∀ (env : HostDevEnv) (cr : NicClusterPolicy) (c : InfoCatalog),
      stateHostDeviceNetwork.Sync env (CustomResource.nicClusterPolicy cr) c = SyncOutcome.panics) ∧
    (∀ (env : HostDevEnv) (c : InfoCatalog),
      stateHostDeviceNetwork.Sync env CustomResource.otherValue c = SyncOutcome.panics) ∧
    (∀ (env : SriovEnv) (cr : NicClusterPolicy) (c : InfoCatalog),
      (stateSriovDp.Sync env (CustomResource.nicClusterPolicy cr) c).isOk = true) ∧
    (∀ (env : SriovEnv) (cr : HostDeviceNetwork) (c : InfoCatalog),
      stateSriovDp.Sync env (CustomResource.hostDeviceNetwork cr) c = SyncOutcome.panics) ∧
    (∀ (env : SriovEnv) (c : InfoCatalog),
      stateSriovDp.Sync env CustomResource.otherValue c = SyncOutcome.panics) :=
  ⟨fun _ _ _ => rfl, fun _ _ _ => rfl, fun _ _ => rfl,
   fun _ _ _ => rfl, fun _ _ _ => rfl, fun _ _ => rfl⟩

/-! ### C3: nil device-plugin sub-spec -/

/-- C3: when the NicClusterPolicy's SriovDevicePlugin sub-spec is nil, the
SR-IOV device plugin state's Sync returns (Ignore, nil) having invoked no
collaborator at all — no InfoCatalog query, no node query, no render, no
apply — and applied no object, whatever the other spec fields hold. -/
theorem c3_nil_subspec_ignore
    (env : SriovEnv) (catalog : InfoCatalog) (cr : NicClusterPolicy)
    (h : cr.spec.sriovDevicePlugin = none) :
    stateSriovDp.Sync env (CustomResource.nicClusterPolicy cr) catalog =
      SyncOutcome.ok ⟨SyncState.Ignore, none, [], []⟩ := by
  simp only [stateSriovDp.Sync, stateSriovDp.syncCR, h]

/-- C3 witness: the concrete NicClusterPolicy with a nil device-plugin
sub-spec but other fields set. -/
theorem c3_witness :
    ncpNoDp.spec.sriovDevicePlugin = none ∧
    stateSriovDp.Sync sriovEnvOk (CustomResource.nicClusterPolicy ncpNoDp)
      (catalogWith [mlnxNode]) = SyncOutcome.ok ⟨SyncState.Ignore, none, [], []⟩ :=
  ⟨rfl, c3_nil_subspec_ignore sriovEnvOk (catalogWith [mlnxNode]) ncpNoDp rfl⟩

/-! ### C4: empty node eligibility set -/

/-- C4: with a non-nil device-plugin sub-spec, a node info provider present
in the catalog, and a filtered node-attribute query that returns no records,
the SR-IOV device plugin state's Sync returns (NotReady, nil); its trace
shows the renderer was never invoked and no object was applied. -/
theorem c4_empty_nodes_notready
    (env : SriovEnv) (catalog : InfoCatalog) (cr : NicClusterPolicy)
    (dp : DevicePluginSpec) (p : NodeInfoProvider)
    (hdp : cr.spec.sriovDevicePlugin = some dp)
    (hp : catalog.getNodeInfoProvider = some p)
    (hattrs : p.getNodesAttributes mlnxNicFilter = []) :
    stateSriovDp.Sync env (CustomResource.nicClusterPolicy cr) catalog =
      SyncOutcome.ok ⟨SyncState.NotReady, none,
        [Call.getNodeInfoProvider, Call.getNodesAttributes], []⟩ := by
  simp only [stateSriovDp.Sync, stateSriovDp.syncCR, hdp, hp,
    stateSriovDp.getManifestObjects, hattrs]
  simp

/-- C4 witness: a catalog whose provider reports no matching nodes. -/
theorem c4_witness :
    ncpCR.spec.sriovDevicePlugin = some ⟨1⟩ ∧
    stateSriovDp.Sync sriovEnvOk (CustomResource.nicClusterPolicy ncpCR)
      (catalogWith []) = SyncOutcome.ok ⟨SyncState.NotReady, none,
        [Call.getNodeInfoProvider, Call.getNodesAttributes], []⟩ :=
  ⟨rfl, c4_empty_nodes_notready sriovEnvOk (catalogWith []) ncpCR ⟨1⟩ ⟨fun _ => []⟩
    rfl rfl rfl⟩

/-! ### C10: render data depends only on the first node record -/

/-- C10: in the SR-IOV render-data builder the node-attribute list is read
only through its head, behind the emptiness check: the whole result of
getManifestObjects is unchanged under any change of the records after the
first (so the OS name placed in the render data comes solely from the first
record), and an empty record list short-circuits to an empty object list
before any indexing, so construction is total. -/
theorem c10_first_record_only :
    (∀ (env : SriovEnv) (cr : NicClusterPolicy) (a0 : NodeAttributes)
      (t t' : List NodeAttributes),
      stateSriovDp.getManifestObjects env cr ⟨fun _ => a0 :: t⟩ =
        stateSriovDp.getManifestObjects env cr ⟨fun _ => a0 :: t'⟩) ∧
    (∀ (env : SriovEnv) (cr : NicClusterPolicy),
      stateSriovDp.getManifestObjects env cr ⟨fun _ => []⟩ =
        (Except.ok [], [Call.getNodesAttributes])) ∧
    (∀ (cr : NicClusterPolicy) (a0 : NodeAttributes),
      (stateSriovDp.renderData cr a0).RuntimeSpec.OSName =
        mapGetD a0.attributes AttributeType.osName) :=
  ⟨fun _ _ _ _ _ => rfl, fun _ _ => rfl, fun _ _ => rfl⟩

/-! ### C1: an empty render result -/

/-- C1 counterexample: the claim says both states avoid the Error verdict on
an empty render result; for the HostDeviceNetwork state a successful render
returning the empty object sequence makes Sync return the Error verdict
(lines 83-85). -/
theorem c1_counterexample :
    stateHostDeviceNetwork.Sync hdEnvEmptyRender
      (CustomResource.hostDeviceNetwork hdnCR) emptyCatalog =
      SyncOutcome.ok ⟨SyncState.Error, none, [Call.renderObjects], []⟩ :=
  rfl

/-- C1 (amended): when RenderObjects succeeds with an empty object sequence,
the SR-IOV device plugin state's Sync treats it as a valid outcome and
returns (NotReady, nil); the HostDeviceNetwork state's Sync instead treats
it as fatal and returns the Error verdict (with a nil error value). -/
theorem c1_amended_empty_render :
    (∀ (env : SriovEnv) (catalog : InfoCatalog) (cr : NicClusterPolicy)
      (dp : DevicePluginSpec) (p : NodeInfoProvider) (a0 : NodeAttributes)
      (t : List NodeAttributes),
      cr.spec.sriovDevicePlugin = some dp →
      catalog.getNodeInfoProvider = some p →
      p.getNodesAttributes mlnxNicFilter = a0 :: t →
      env.renderObjects (stateSriovDp.renderData cr a0) = Except.ok [] →
      stateSriovDp.Sync env (CustomResource.nicClusterPolicy cr) catalog =
        SyncOutcome.ok ⟨SyncState.NotReady, none,
          [Call.getNodeInfoProvider, Call.getNodesAttributes, Call.renderObjects], []⟩) ∧
    (∀ (env : HostDevEnv) (catalog : InfoCatalog) (cr : HostDeviceNetwork),
      env.renderObjects (stateHostDeviceNetwork.renderData cr) = Except.ok [] →
      stateHostDeviceNetwork.Sync env (CustomResource.hostDeviceNetwork cr) catalog =
        SyncOutcome.ok ⟨SyncState.Error, none, [Call.renderObjects], []⟩) := by
  constructor
  · intro env catalog cr dp p a0 t hdp hp hattrs hrender
    simp only [stateSriovDp.Sync, stateSriovDp.syncCR, hdp, hp,
      stateSriovDp.getManifestObjects, hattrs, hrender]
    simp
  · intro env catalog cr hrender
    simp only [stateHostDeviceNetwork.Sync, stateHostDeviceNetwork.syncCR,
      stateHostDeviceNetwork.getManifestObjects, hrender, errorsWrap]

/-- C1 witness: concrete environments whose renderer returns the empty
object sequence, for both states. -/
theorem c1_witness :
    stateSriovDp.Sync sriovEnvEmptyRender (CustomResource.nicClusterPolicy ncpCR)
      (catalogWith [mlnxNode]) = SyncOutcome.ok ⟨SyncState.NotReady, none,
        [Call.getNodeInfoProvider, Call.getNodesAttributes, Call.renderObjects], []⟩ ∧
    stateHostDeviceNetwork.Sync hdEnvEmptyRender
      (CustomResource.hostDeviceNetwork hdnCRPrefixed) emptyCatalog =
      SyncOutcome.ok ⟨SyncState.Error, none, [Call.renderObjects], []⟩ :=
  ⟨c1_amended_empty_render.1 sriovEnvEmptyRender (catalogWith [mlnxNode]) ncpCR
      ⟨1⟩ ⟨fun _ => [mlnxNode]⟩ mlnxNode [] rfl rfl rfl rfl,
   c1_amended_empty_render.2 hdEnvEmptyRender emptyCatalog hdnCRPrefixed rfl⟩

/-! ### C8: resource-name normalization -/

/-- Prepending the resource-name prefix yields a string that carries it. -/
lemma stringsHasPrefix_append (s : String) :
    stringsHasPrefix (resourceNamePrefix ++ s) resourceNamePrefix = true := by
  unfold stringsHasPrefix
  rw [String.data_append, List.isPrefixOf_iff_prefix]
  exact List.prefix_append _ _

/-- C8: the HostDeviceNetwork render-data builder prepends exactly one copy
of "nvidia.com/" to a resource name that lacks it, leaves a name that
already carries it unchanged, and the normalization is idempotent. -/
theorem c8_name_normalization :
    (∀ cr : HostDeviceNetwork,
      stringsHasPrefix cr.spec.resourceName resourceNamePrefix = false →
      (stateHostDeviceNetwork.renderData cr).ResourceName =
        resourceNamePrefix ++ cr.spec.resourceName) ∧
    (∀ cr : HostDeviceNetwork,
      stringsHasPrefix cr.spec.resourceName resourceNamePrefix = true →
      (stateHostDeviceNetwork.renderData cr).ResourceName = cr.spec.resourceName) ∧
    (∀ s : String,
      normalizeResourceName (normalizeResourceName s) = normalizeResourceName s) := by
  refine ⟨?_, ?_, ?_⟩
  · intro cr h
    simp [stateHostDeviceNetwork.renderData, normalizeResourceName, h]
  · intro cr h
    simp [stateHostDeviceNetwork.renderData, normalizeResourceName, h]
  · intro s
    unfold normalizeResourceName
    by_cases h : stringsHasPrefix s resourceNamePrefix = true
    · simp [h]
    · simp [h, stringsHasPrefix_append]

/-- C8 witness: "ib0" gains the prefix once, "nvidia.com/ib0" is unchanged,
and normalizing "ib0" twice equals normalizing it once. -/
theorem c8_witness :
    stringsHasPrefix hdnCR.spec.resourceName resourceNamePrefix = false ∧
    (stateHostDeviceNetwork.renderData hdnCR).ResourceName = "nvidia.com/" ++ "ib0" ∧
    stringsHasPrefix hdnCRPrefixed.spec.resourceName resourceNamePrefix = true ∧
    (stateHostDeviceNetwork.renderData hdnCRPrefixed).ResourceName = "nvidia.com/ib0" ∧
    normalizeResourceName (normalizeResourceName "ib0") = normalizeResourceName "ib0" :=
  ⟨by decide, c8_name_normalization.1 hdnCR (by decide),
   by decide, c8_name_normalization.2.1 hdnCRPrefixed (by decide),
   c8_name_normalization.2.2 "ib0"⟩

/-! ### C9: the Error verdict with a nil error value -/

/-- C9: for the HostDeviceNetwork state, a successful render that yields an
empty object list, or whose first object is not a NetworkAttachmentDefinition,
makes Sync return the Error verdict paired with a nil error value — at
lines 83-90 `errors.Wrap` is applied to the nil error left by the successful
getManifestObjects call, and `errors.Wrap(nil, msg)` is nil. -/
theorem c9_error_with_nil_error :
    (∀ (env : HostDevEnv) (catalog : InfoCatalog) (cr : HostDeviceNetwork),
      env.renderObjects (stateHostDeviceNetwork.renderData cr) = Except.ok [] →
      stateHostDeviceNetwork.Sync env (CustomResource.hostDeviceNetwork cr) catalog =
        SyncOutcome.ok ⟨SyncState.Error, none, [Call.renderObjects], []⟩) ∧
    (∀ (env : HostDevEnv) (catalog : InfoCatalog) (cr : HostDeviceNetwork)
      (o : Unstructured) (rest : List Unstructured),
      env.renderObjects (stateHostDeviceNetwork.renderData cr) = Except.ok (o :: rest) →
      o.GetKind ≠ "NetworkAttachmentDefinition" →
      stateHostDeviceNetwork.Sync env (CustomResource.hostDeviceNetwork cr) catalog =
        SyncOutcome.ok ⟨SyncState.Error, none, [Call.renderObjects], []⟩) := by
  constructor
  · intro env catalog cr hrender
    simp only [stateHostDeviceNetwork.Sync, stateHostDeviceNetwork.syncCR,
      stateHostDeviceNetwork.getManifestObjects, hrender, errorsWrap]
  · intro env catalog cr o rest hrender hkind
    simp only [stateHostDeviceNetwork.Sync, stateHostDeviceNetwork.syncCR,
      stateHostDeviceNetwork.getManifestObjects, hrender]
    rw [if_pos hkind]
    simp only [errorsWrap]

/-- C9 witness: an empty render and a render whose first object is a
DaemonSet both produce (Error, nil). -/
theorem c9_witness :
    stateHostDeviceNetwork.Sync hdEnvEmptyRender
      (CustomResource.hostDeviceNetwork hdnCR) (catalogWith [mlnxNode]) =
      SyncOutcome.ok ⟨SyncState.Error, none, [Call.renderObjects], []⟩ ∧
    stateHostDeviceNetwork.Sync hdEnvWrongKind
      (CustomResource.hostDeviceNetwork hdnCR) (catalogWith [mlnxNode]) =
      SyncOutcome.ok ⟨SyncState.Error, none, [Call.renderObjects], []⟩ :=
  ⟨c9_error_with_nil_error.1 hdEnvEmptyRender (catalogWith [mlnxNode]) hdnCR rfl,
   c9_error_with_nil_error.2 hdEnvWrongKind (catalogWith [mlnxNode]) hdnCR dsObj []
     rfl (by decide)⟩

/-! ### C6: apply failures are NotReady -/

/-- C6: in both states, when the create-or-update application of the
rendered objects fails, Sync returns the NotReady verdict (not Error)
together with a non-nil error wrapping the apply failure with
"failed to create/update objects". -/
theorem c6_apply_failure_notready :
    (∀ (env : HostDevEnv) (catalog : InfoCatalog) (cr : HostDeviceNetwork)
      (nad : Unstructured) (rest ap : List Unstructured) (e : GoErr),
      env.renderObjects (stateHostDeviceNetwork.renderData cr) = Except.ok (nad :: rest) →
      nad.GetKind = "NetworkAttachmentDefinition" →
      createOrUpdateObjs (stateHostDeviceNetwork.syncHook env cr) env.applyObj
        (nad :: rest) = (some e, ap) →
      stateHostDeviceNetwork.Sync env (CustomResource.hostDeviceNetwork cr) catalog =
        SyncOutcome.ok ⟨SyncState.NotReady,
          some ("failed to create/update objects: " ++ e),
          [Call.renderObjects, Call.createOrUpdate], ap⟩) ∧
    (∀ (env : SriovEnv) (catalog : InfoCatalog) (cr : NicClusterPolicy)
      (dp : DevicePluginSpec) (p : NodeInfoProvider) (a0 : NodeAttributes)
      (t : List NodeAttributes) (o : Unstructured) (os ap : List Unstructured)
      (e : GoErr),
      cr.spec.sriovDevicePlugin = some dp →
      catalog.getNodeInfoProvider = some p →
      p.getNodesAttributes mlnxNicFilter = a0 :: t →
      env.renderObjects (stateSriovDp.renderData cr a0) = Except.ok (o :: os) →
      createOrUpdateObjs (stateSriovDp.syncHook env cr) env.applyObj
        (o :: os) = (some e, ap) →
      stateSriovDp.Sync env (CustomResource.nicClusterPolicy cr) catalog =
        SyncOutcome.ok ⟨SyncState.NotReady,
          some ("failed to create/update objects: " ++ e),
          [Call.getNodeInfoProvider, Call.getNodesAttributes, Call.renderObjects,
            Call.createOrUpdate], ap⟩) := by
  constructor
  · intro env catalog cr nad rest ap e hrender hkind happly
    simp only [stateHostDeviceNetwork.Sync, stateHostDeviceNetwork.syncCR,
      stateHostDeviceNetwork.getManifestObjects, hrender]
    rw [if_neg (not_not_intro hkind)]
    simp only [happly, errorsWrap]
    rfl
  · intro env catalog cr dp p a0 t o os ap e hdp hp hattrs hrender happly
    simp only [stateSriovDp.Sync, stateSriovDp.syncCR, hdp, hp,
      stateSriovDp.getManifestObjects, hattrs, hrender]
    simp only [List.length_cons, happly, errorsWrap]
    simp

/-- C6 witness: environments whose per-object apply is rejected, for both
states. -/
theorem c6_witness :
    stateHostDeviceNetwork.Sync hdEnvApplyFail
      (CustomResource.hostDeviceNetwork hdnCR) emptyCatalog =
      SyncOutcome.ok ⟨SyncState.NotReady,
        some ("failed to create/update objects: " ++ "apply rejected"),
        [Call.renderObjects, Call.createOrUpdate], []⟩ ∧
    stateSriovDp.Sync sriovEnvApplyFail (CustomResource.nicClusterPolicy ncpCR)
      (catalogWith [mlnxNode]) =
      SyncOutcome.ok ⟨SyncState.NotReady,
        some ("failed to create/update objects: " ++ "apply rejected"),
        [Call.getNodeInfoProvider, Call.getNodesAttributes, Call.renderObjects,
          Call.createOrUpdate], []⟩ :=
  ⟨c6_apply_failure_notready.1 hdEnvApplyFail emptyCatalog hdnCR nadObj [] [] _
      rfl rfl rfl,
   c6_apply_failure_notready.2 sriovEnvApplyFail (catalogWith [mlnxNode]) ncpCR
      ⟨1⟩ ⟨fun _ => [mlnxNode]⟩ mlnxNode [] dsObj [cfgObj] [] _ rfl rfl rfl rfl rfl⟩

/-! ### C5: observation errors after a successful apply -/

/-- C5 counterexample: the claim says a failing post-apply status read
(getSyncState) causes the Error verdict; in the code (HostDeviceNetwork
lines 103-107, SriovDp lines 108-113) it causes NotReady. Here apply
succeeded, getSyncState fails, and Sync returns NotReady. -/
theorem c5_counterexample :
    stateHostDeviceNetwork.Sync hdEnvStatusFail
      (CustomResource.hostDeviceNetwork hdnCR) emptyCatalog =
      SyncOutcome.ok ⟨SyncState.NotReady,
        some "failed to get sync state: status read failed",
        [Call.renderObjects, Call.createOrUpdate, Call.getSyncState], [nadObj]⟩ :=
  rfl

/-- C5 (amended): after a successful apply, a failing status read
(getSyncState) yields the NotReady verdict with a wrapped non-nil error, in
both states; the other observation error — the primary
NetworkAttachmentDefinition not being found after apply (getObj, present
only in the HostDeviceNetwork state) — yields the Error verdict. -/
theorem c5_amended_observation :
    (∀ (env : HostDevEnv) (catalog : InfoCatalog) (cr : HostDeviceNetwork)
      (nad : Unstructured) (rest ap : List Unstructured) (e : GoErr),
      env.renderObjects (stateHostDeviceNetwork.renderData cr) = Except.ok (nad :: rest) →
      nad.GetKind = "NetworkAttachmentDefinition" →
      createOrUpdateObjs (stateHostDeviceNetwork.syncHook env cr) env.applyObj
        (nad :: rest) = (none, ap) →
      env.getSyncState (nad :: rest) = Except.error e →
      stateHostDeviceNetwork.Sync env (CustomResource.hostDeviceNetwork cr) catalog =
        SyncOutcome.ok ⟨SyncState.NotReady, some ("failed to get sync state: " ++ e),
          [Call.renderObjects, Call.createOrUpdate, Call.getSyncState], ap⟩) ∧
    (∀ (env : HostDevEnv) (catalog : InfoCatalog) (cr : HostDeviceNetwork)
      (nad : Unstructured) (rest ap : List Unstructured) (st : SyncState) (e : GoErr),
      env.renderObjects (stateHostDeviceNetwork.renderData cr) = Except.ok (nad :: rest) →
      nad.GetKind = "NetworkAttachmentDefinition" →
      createOrUpdateObjs (stateHostDeviceNetwork.syncHook env cr) env.applyObj
        (nad :: rest) = (none, ap) →
      env.getSyncState (nad :: rest) = Except.ok st →
      env.getObj nad = some e →
      stateHostDeviceNetwork.Sync env (CustomResource.hostDeviceNetwork cr) catalog =
        SyncOutcome.ok ⟨SyncState.Error,
          some ("failed to get NetworkAttachmentDefinition: " ++ e),
          [Call.renderObjects, Call.createOrUpdate, Call.getSyncState, Call.getObj], ap⟩) ∧
    (∀ (env : SriovEnv) (catalog : InfoCatalog) (cr : NicClusterPolicy)
      (dp : DevicePluginSpec) (p : NodeInfoProvider) (a0 : NodeAttributes)
      (t : List NodeAttributes) (o : Unstructured) (os ap : List Unstructured)
      (e : GoErr),
      cr.spec.sriovDevicePlugin = some dp →
      catalog.getNodeInfoProvider = some p →
      p.getNodesAttributes mlnxNicFilter = a0 :: t →
      env.renderObjects (stateSriovDp.renderData cr a0) = Except.ok (o :: os) →
      createOrUpdateObjs (stateSriovDp.syncHook env cr) env.applyObj
        (o :: os) = (none, ap) →
      env.getSyncState (o :: os) = Except.error e →
      stateSriovDp.Sync env (CustomResource.nicClusterPolicy cr) catalog =
        SyncOutcome.ok ⟨SyncState.NotReady, some ("failed to get sync state: " ++ e),
          [Call.getNodeInfoProvider, Call.getNodesAttributes, Call.renderObjects,
            Call.createOrUpdate, Call.getSyncState], ap⟩) := by
  refine ⟨?_, ?_, ?_⟩
  · intro env catalog cr nad rest ap e hrender hkind happly hgss
    simp only [stateHostDeviceNetwork.Sync, stateHostDeviceNetwork.syncCR,
      stateHostDeviceNetwork.getManifestObjects, hrender]
    rw [if_neg (not_not_intro hkind)]
    simp only [happly, hgss, errorsWrap]
    rfl
  · intro env catalog cr nad rest ap st e hrender hkind happly hgss hgobj
    simp only [stateHostDeviceNetwork.Sync, stateHostDeviceNetwork.syncCR,
      stateHostDeviceNetwork.getManifestObjects, hrender]
    rw [if_neg (not_not_intro hkind)]
    simp only [happly, hgss, hgobj, errorsWrap]
    rfl
  · intro env catalog cr dp p a0 t o os ap e hdp hp hattrs hrender happly hgss
    simp only [stateSriovDp.Sync, stateSriovDp.syncCR, hdp, hp,
      stateSriovDp.getManifestObjects, hattrs, hrender]
    simp only [List.length_cons, happly, hgss, errorsWrap]
    simp

/-- C5 witness: a failing status read makes each state's Sync return
NotReady, and a failing post-apply read of the primary object makes the
HostDeviceNetwork state's Sync return Error. -/
theorem c5_witness :
    stateHostDeviceNetwork.Sync hdEnvStatusFail
      (CustomResource.hostDeviceNetwork hdnCRPrefixed) emptyCatalog =
      SyncOutcome.ok ⟨SyncState.NotReady,
        some ("failed to get sync state: " ++ "status read failed"),
        [Call.renderObjects, Call.createOrUpdate, Call.getSyncState], [nadObj]⟩ ∧
    stateHostDeviceNetwork.Sync hdEnvGetObjFail
      (CustomResource.hostDeviceNetwork hdnCR) emptyCatalog =
      SyncOutcome.ok ⟨SyncState.Error,
        some ("failed to get NetworkAttachmentDefinition: " ++ "not found"),
        [Call.renderObjects, Call.createOrUpdate, Call.getSyncState, Call.getObj],
        [nadObj]⟩ ∧
    stateSriovDp.Sync sriovEnvStatusFail (CustomResource.nicClusterPolicy ncpCR)
      (catalogWith [mlnxNode]) =
      SyncOutcome.ok ⟨SyncState.NotReady,
        some ("failed to get sync state: " ++ "status read failed"),
        [Call.getNodeInfoProvider, Call.getNodesAttributes, Call.renderObjects,
          Call.createOrUpdate, Call.getSyncState], [dsObj, cfgObj]⟩ :=
  ⟨c5_amended_observation.1 hdEnvStatusFail emptyCatalog hdnCRPrefixed nadObj []
      [nadObj] _ rfl rfl rfl rfl,
   c5_amended_observation.2.1 hdEnvGetObjFail emptyCatalog hdnCR nadObj [] [nadObj]
      SyncState.Ready _ rfl rfl rfl rfl rfl,
   c5_amended_observation.2.2 sriovEnvStatusFail (catalogWith [mlnxNode]) ncpCR
      ⟨1⟩ ⟨fun _ => [mlnxNode]⟩ mlnxNode [] dsObj [cfgObj] [dsObj, cfgObj] _
      rfl rfl rfl rfl rfl rfl⟩

/-! ### C7: a failing ownership-stamping hook -/

/-- C7 counterexample: the claim says a failing ownership-stamping hook makes
Sync surface the Error verdict; in the code (HostDeviceNetwork lines 99-101)
the error from createOrUpdateObjs — which carries the hook failure — makes
Sync return NotReady. Here the hook fails on the second of two rendered
objects and Sync returns NotReady. -/
theorem c7_counterexample :
    stateHostDeviceNetwork.Sync hdEnvHookFail
      (CustomResource.hostDeviceNetwork hdnCR) emptyCatalog =
      SyncOutcome.ok ⟨SyncState.NotReady,
        some ("failed to create/update objects: failed to set controller reference for object: object already owned by another controller"),
        [Call.renderObjects, Call.createOrUpdate], [nadObj]⟩ :=
  rfl

/-- One unfolding step of createOrUpdateObjs on a non-empty batch. -/
lemma createOrUpdateObjs_cons (hook ap : Unstructured → Option GoErr)
    (obj : Unstructured) (rest : List Unstructured) :
    createOrUpdateObjs hook ap (obj :: rest) =
      match hook obj with
      | some e => (some e, [])
      | none =>
        match ap obj with
        | some e => (some e, [])
        | none =>
          match createOrUpdateObjs hook ap rest with
          | (res, applied) => (res, obj :: applied) :=
  rfl

/-- C7 (amended): when the ownership-stamping mutation hook fails on some
object, the whole apply batch is aborted — the objects before the failing
one are the only ones applied, and no later object in the sequence is
applied — and in both states Sync surfaces the failure as the NotReady
verdict (not Error) with a non-nil wrapped error. -/
theorem c7_amended_hook_abort :
    (∀ (hook ap : Unstructured → Option GoErr) (pre : List Unstructured)
      (o : Unstructured) (rest : List Unstructured) (e : GoErr),
      (∀ x ∈ pre, hook x = none ∧ ap x = none) →
      hook o = some e →
      createOrUpdateObjs hook ap (pre ++ o :: rest) = (some e, pre)) ∧
    (∀ (env : HostDevEnv) (catalog : InfoCatalog) (cr : HostDeviceNetwork)
      (nad : Unstructured) (mid : List Unstructured) (o : Unstructured)
      (rest : List Unstructured) (e : GoErr),
      env.renderObjects (stateHostDeviceNetwork.renderData cr) =
        Except.ok (nad :: (mid ++ o :: rest)) →
      nad.GetKind = "NetworkAttachmentDefinition" →
      (∀ x ∈ nad :: mid, stateHostDeviceNetwork.syncHook env cr x = none ∧
        env.applyObj x = none) →
      stateHostDeviceNetwork.syncHook env cr o = some e →
      stateHostDeviceNetwork.Sync env (CustomResource.hostDeviceNetwork cr) catalog =
        SyncOutcome.ok ⟨SyncState.NotReady,
          some ("failed to create/update objects: " ++ e),
          [Call.renderObjects, Call.createOrUpdate], nad :: mid⟩) ∧
    (∀ (env : SriovEnv) (catalog : InfoCatalog) (cr : NicClusterPolicy)
      (dp : DevicePluginSpec) (p : NodeInfoProvider) (a0 : NodeAttributes)
      (t : List NodeAttributes) (o : Unstructured) (mid : List Unstructured)
      (o2 : Unstructured) (rest : List Unstructured) (e : GoErr),
      cr.spec.sriovDevicePlugin = some dp →
      catalog.getNodeInfoProvider = some p →
      p.getNodesAttributes mlnxNicFilter = a0 :: t →
      env.renderObjects (stateSriovDp.renderData cr a0) =
        Except.ok (o :: (mid ++ o2 :: rest)) →
      (∀ x ∈ o :: mid, stateSriovDp.syncHook env cr x = none ∧
        env.applyObj x = none) →
      stateSriovDp.syncHook env cr o2 = some e →
      stateSriovDp.Sync env (CustomResource.nicClusterPolicy cr) catalog =
        SyncOutcome.ok ⟨SyncState.NotReady,
          some ("failed to create/update objects: " ++ e),
          [Call.getNodeInfoProvider, Call.getNodesAttributes, Call.renderObjects,
            Call.createOrUpdate], o :: mid⟩) := by
  have key : ∀ (hook ap : Unstructured → Option GoErr) (pre : List Unstructured)
      (o : Unstructured) (rest : List Unstructured) (e : GoErr),
      (∀ x ∈ pre, hook x = none ∧ ap x = none) → hook o = some e →
      createOrUpdateObjs hook ap (pre ++ o :: rest) = (some e, pre) := by
    intro hook ap pre
    induction pre with
    | nil =>
      intro o rest e _ ho
      simp [createOrUpdateObjs, ho]
    | cons a t ih =>
      intro o rest e hall ho
      have ha := hall a (by simp)
      have ht : ∀ x ∈ t, hook x = none ∧ ap x = none := fun x hx =>
        hall x (by simp [hx])
      rw [List.cons_append, createOrUpdateObjs_cons, ha.1, ha.2,
        ih o rest e ht ho]
  refine ⟨key, ?_, ?_⟩
  · intro env catalog cr nad mid o rest e hrender hkind hall ho
    have happ := key (stateHostDeviceNetwork.syncHook env cr) env.applyObj
      (nad :: mid) o rest e hall ho
    rw [List.cons_append] at happ
    simp only [stateHostDeviceNetwork.Sync, stateHostDeviceNetwork.syncCR,
      stateHostDeviceNetwork.getManifestObjects, hrender]
    rw [if_neg (not_not_intro hkind)]
    simp only [happ, errorsWrap]
    rfl
  · intro env catalog cr dp p a0 t o mid o2 rest e hdp hp hattrs hrender hall ho
    have happ := key (stateSriovDp.syncHook env cr) env.applyObj
      (o :: mid) o2 rest e hall ho
    rw [List.cons_append] at happ
    simp only [stateSriovDp.Sync, stateSriovDp.syncCR, hdp, hp,
      stateSriovDp.getManifestObjects, hattrs, hrender]
    simp only [List.length_cons, happ, errorsWrap]
    simp

/-- C7 witness: the hook fails on the second rendered object; in each state
exactly the first object is applied and Sync returns NotReady with the
wrapped error. -/
theorem c7_witness :
    createOrUpdateObjs (fun x => if x = cfgObj then some "boom" else none)
      (fun _ => none) ([nadObj] ++ cfgObj :: [dsObj]) = (some "boom", [nadObj]) ∧
    stateHostDeviceNetwork.Sync hdEnvHookFail
      (CustomResource.hostDeviceNetwork hdnCRPrefixed) emptyCatalog =
      SyncOutcome.ok ⟨SyncState.NotReady,
        some ("failed to create/update objects: " ++
          "failed to set controller reference for object: object already owned by another controller"),
        [Call.renderObjects, Call.createOrUpdate], [nadObj]⟩ ∧
    stateSriovDp.Sync sriovEnvHookFail (CustomResource.nicClusterPolicy ncpCR)
      (catalogWith [mlnxNode]) =
      SyncOutcome.ok ⟨SyncState.NotReady,
        some ("failed to create/update objects: " ++
          "failed to set controller reference for object: object already owned by another controller"),
        [Call.getNodeInfoProvider, Call.getNodesAttributes, Call.renderObjects,
          Call.createOrUpdate], [dsObj]⟩ :=
  ⟨c7_amended_hook_abort.1 (fun x => if x = cfgObj then some "boom" else none)
      (fun _ => none) [nadObj] cfgObj [dsObj] "boom" (by decide) (by decide),
   c7_amended_hook_abort.2.1 hdEnvHookFail emptyCatalog hdnCRPrefixed nadObj []
      cfgObj [] _ rfl rfl (by decide) rfl,
   c7_amended_hook_abort.2.2 sriovEnvHookFail (catalogWith [mlnxNode]) ncpCR
      ⟨1⟩ ⟨fun _ => [mlnxNode]⟩ mlnxNode [] dsObj [] cfgObj [] _
      rfl rfl rfl rfl (by decide) rfl⟩
